import Mathlib

/-
Verification of the conversational-agent core of `main.py` (FastAPI voice
assistant).  The pure control-flow of the source is embedded shallowly:

* the in-memory session store `chat_sessions : Dict[str, List[dict]]`
  (a `defaultdict(list)`) is modelled as an association list from session
  ids to message sequences; `chat_sessions[sid]` (which inserts an empty
  entry when absent) is `touch`, `chat_sessions.get(sid, [])` is `getSeq`,
  `del chat_sessions[sid]` is `eraseKey`;
* the two inline truncation algorithms (main.py lines 702-722 in
  `query_llm` and lines 899-916 in `chat_with_history`) are embedded as
  `truncateQuery` and `truncateChat`; Python `str.rfind` returning `-1`
  when absent is `rfindChar : List Char → Char → Int`; the float
  comparisons `i > m * 0.8` and `i > m * 0.9` are embedded as the exact
  integer comparisons `5 * i > 4 * m` and `10 * i > 9 * m`, which agree
  with the Python float semantics at the value `m = 3000` used by the
  source (3000 * 0.8 == 2400.0 and 3000 * 0.9 == 2700.0 exactly);
* the orchestrator `chat_with_history` (lines 777-1014) is embedded as a
  pure function; the three external capability calls
  (`safe_transcribe_audio`, `safe_generate_llm_response`,
  `safe_generate_tts`) return `(value, error)` pairs and are passed in as
  oracle results, and `generate_fallback_tts` is passed in as the opaque
  value it returns; Python truthiness of the optional error strings is
  `pyTruthy`.  The prompt built at lines 856-874 only feeds the language
  model oracle, so it does not influence the modelled state.
* the `except Exception` handler at lines 995-1014 is embedded as
  `handleUnexpected`, taking the store as it stands when the exception is
  raised.
-/

namespace MurfAgent

inductive Role where
  | user
  | assistant
deriving DecidableEq

structure Message where
  role : Role
  content : List Char
  timestamp : Nat
deriving DecidableEq

abbrev Store := List (String × List Message)

/-- MAX_HISTORY_MESSAGES from main.py line 33. -/
def MAX_HISTORY_MESSAGES : Nat := 20

/-- MAX_MURF_CHARS from main.py lines 699 and 899. -/
def MAX_MURF_CHARS : Nat := 3000

inductive ErrorType where
  | stt_error
  | llm_error
  | tts_error
  | connection_error
  | general_error
deriving DecidableEq

/-- FALLBACK_MESSAGES dictionary from main.py lines 36-42, verbatim. -/
def FALLBACK_MESSAGES : ErrorType → List Char
  | .stt_error =>
      "I\x27m having trouble hearing you right now. Please check your microphone and try again.".data
  | .llm_error =>
      "I\x27m having trouble thinking right now. My AI brain needs a moment to reconnect.".data
  | .tts_error =>
      "I\x27m having trouble speaking right now, but I can still understand you.".data
  | .connection_error =>
      "I\x27m having trouble connecting to my services right now. Please try again in a moment.".data
  | .general_error =>
      "Something went wrong on my end. Let me try to help you differently.".data

/-- Lookup of a session id in the store (first matching key, as in a dict). -/
def lookupSeq : Store → String → Option (List Message)
  | [], _ => none
  | (k2, v) :: rest, k => if k2 = k then some v else lookupSeq rest k

/-- Reading a session without creating it: `chat_sessions.get(sid, [])`. -/
def getSeq (s : Store) (k : String) : List Message :=
  (lookupSeq s k).getD []

/-- Membership test: `sid in chat_sessions`. -/
def hasKey (s : Store) (k : String) : Bool :=
  (lookupSeq s k).isSome

/-- Replace the sequence stored at a key, inserting at the end if absent
(dict insertion-order semantics). -/
def setSeq : Store → String → List Message → Store
  | [], k, v => [(k, v)]
  | (k2, v2) :: rest, k, v =>
      if k2 = k then (k2, v) :: rest else (k2, v2) :: setSeq rest k v

/-- The defaultdict read `chat_sessions[sid]`: inserts an empty entry when
the key is absent. -/
def touch (s : Store) (k : String) : Store :=
  if hasKey s k then s else s ++ [(k, [])]

/-- The statement `chat_sessions[sid].append(msg)`: defaultdict access plus
in-place append. -/
def appendMsg (s : Store) (k : String) (m : Message) : Store :=
  setSeq (touch s k) k (getSeq s k ++ [m])

/-- The statement `del chat_sessions[sid]`. -/
def eraseKey : Store → String → Store
  | [], _ => []
  | (k2, v) :: rest, k =>
      if k2 = k then rest else (k2, v) :: eraseKey rest k

/-- Stores built by the operations above have pairwise distinct keys, as a
Python dict does. -/
def StoreWF (s : Store) : Prop :=
  (s.map Prod.fst).Nodup

/-- Python slice `xs[-n:]` for `n > 0`. -/
def sliceLast (xs : List Message) (n : Nat) : List Message :=
  xs.drop (xs.length - n)

/-- The history-trim statement at main.py lines 944-946:
`if len(h) > MAX_HISTORY_MESSAGES * 2: h = h[-MAX_HISTORY_MESSAGES:]`. -/
def trimStep (msgs : List Message) : List Message :=
  if msgs.length > MAX_HISTORY_MESSAGES * 2 then
    sliceLast msgs MAX_HISTORY_MESSAGES
  else msgs

/-- Python truthiness of an optional error string (`if transcript_error:`
etc.); `None` and the empty string are falsy. -/
def pyTruthy : Option (List Char) → Bool
  | none => false
  | some s => !s.isEmpty

def rfindCharAux (c : Char) : List Char → Nat → Int → Int
  | [], _, best => best
  | x :: xs, i, best =>
      rfindCharAux c xs (i + 1) (if x = c then (i : Int) else best)

/-- Python `s.rfind(c)` for a single character: the greatest index at which
`c` occurs, or `-1` when it does not occur. -/
def rfindChar (s : List Char) (c : Char) : Int :=
  rfindCharAux c s 0 (-1)

/-- The expression `max(t.rfind('.'), t.rfind('!'), t.rfind('?'))` used by
both truncation sites. -/
def lastSentenceIdx (w : List Char) : Int :=
  max (max (rfindChar w '.') (rfindChar w '!')) (rfindChar w '?')

/-- Truncation inlined in `chat_with_history`, main.py lines 899-916.  On
the word-boundary branch the source cuts at the rightmost space whenever
`last_space > 0` and always appends an ellipsis. -/
def truncateChat (t : List Char) (m : Nat) : List Char :=
  if t.length > m then
    let truncated := t.take m
    let lastSentence := lastSentenceIdx truncated
    if 5 * lastSentence > 4 * (m : Int) then
      truncated.take (lastSentence.toNat + 1)
    else
      let lastSpace := rfindChar truncated ' '
      (if lastSpace > 0 then truncated.take lastSpace.toNat else truncated) ++ "...".data
  else t

/-- Truncation inlined in `query_llm`, main.py lines 702-722.  On the
word-boundary branch the source cuts at the rightmost space only when
`last_space > m * 0.9`, otherwise at the raw window, appending an ellipsis
in both cases. -/
def truncateQuery (t : List Char) (m : Nat) : List Char :=
  if t.length > m then
    let truncated := t.take m
    let lastSentenceEnd := lastSentenceIdx truncated
    if 5 * lastSentenceEnd > 4 * (m : Int) then
      truncated.take (lastSentenceEnd.toNat + 1)
    else
      let lastSpace := rfindChar truncated ' '
      if 10 * lastSpace > 9 * (m : Int) then
        truncated.take lastSpace.toNat ++ "...".data
      else
        truncated ++ "...".data
  else t

def toLowerStr (s : List Char) : List Char :=
  s.map Char.toLower

/-- Python `needle in haystack` for strings. -/
def containsSub (needle : List Char) : List Char → Bool
  | [] => needle.isEmpty
  | c :: rest => needle.isPrefixOf (c :: rest) || containsSub needle rest

/-- get_error_type from main.py lines 45-58: keyword classification of the
text of an unanticipated exception. -/
def get_error_type (excStr : List Char) : ErrorType :=
  let e := toLowerStr excStr
  if containsSub "assemblyai".data e || containsSub "transcription".data e ||
      containsSub "speech".data e then .stt_error
  else if containsSub "gemini".data e || containsSub "llm".data e ||
      containsSub "generate_content".data e then .llm_error
  else if containsSub "murf".data e || containsSub "tts".data e ||
      containsSub "text_to_speech".data e then .tts_error
  else if containsSub "connection".data e || containsSub "network".data e ||
      containsSub "timeout".data e then .connection_error
  else .general_error

/-- ChatResponse pydantic model, main.py lines 228-237. -/
structure ChatResponse where
  success : Bool
  message : List Char
  audio_url : Option (List Char)
  transcript : Option (List Char)
  llm_response : Option (List Char)
  session_id : String
  message_count : Nat
  error_type : Option ErrorType
  fallback_used : Bool
deriving DecidableEq

/-- Status narrative assembled at main.py lines 952-968. -/
def statusMessage (sttErr llmErr ttsErr : Option (List Char)) : List Char :=
  (if pyTruthy sttErr then "❌ Speech recognition failed".data
   else "✅ Speech recognized".data) ++
  " | ".data ++
  (if pyTruthy llmErr then "🔄 Using fallback response".data
   else "✅ AI response generated".data) ++
  " | ".data ++
  (if pyTruthy ttsErr then "⚠️ Audio generation failed".data
   else "✅ Audio generated".data)

/-- The orchestrator `chat_with_history`, main.py lines 777-988 (the body of
the `try:` block).  `sttRes`, `llmRes` and `ttsRes` are the `(value, error)`
pairs returned by `safe_transcribe_audio`, `safe_generate_llm_response` and
`safe_generate_tts` for this turn; `fbAudio` is the value
`generate_fallback_tts` returns on the transcription-failure path; `ts1` and
`ts2` are the two `datetime.now()` instants.  Returns the `ChatResponse`
together with the final state of `chat_sessions`. -/
def chat_with_history (store : Store) (sid : String)
    (sttRes llmRes ttsRes : Option (List Char) × Option (List Char))
    (fbAudio : Option (List Char)) (ts1 ts2 : Nat) : ChatResponse × Store :=
  -- line 810: first defaultdict access, creates the session when absent
  let store1 := touch store sid
  if pyTruthy sttRes.2 then
    -- lines 827-845: transcription failed, return immediately
    ({ success := false
       message := FALLBACK_MESSAGES ErrorType.stt_error
       audio_url := fbAudio
       transcript := none
       llm_response := some (FALLBACK_MESSAGES ErrorType.stt_error)
       session_id := sid
       message_count := (getSeq store1 sid).length
       error_type := some ErrorType.stt_error
       fallback_used := true }, store1)
  else
    -- lines 849-854: append the user message
    let userText := sttRes.1.getD []
    let store2 := appendMsg store1 sid ⟨Role.user, userText, ts1⟩
    -- lines 879-888: generate, substituting the llm fallback on failure
    let llmFailed := pyTruthy llmRes.2
    let assistantText :=
      if llmFailed then FALLBACK_MESSAGES ErrorType.llm_error else llmRes.1.getD []
    let fallbackUsed := llmFailed
    let et1 : Option ErrorType :=
      if llmFailed then some ErrorType.llm_error else none
    -- lines 890-895: append the assistant message (fallback or real)
    let store3 := appendMsg store2 sid ⟨Role.assistant, assistantText, ts2⟩
    -- lines 899-916: pre-synthesis truncation (feeds the TTS oracle)
    let _ttsText := truncateChat assistantText MAX_MURF_CHARS
    -- lines 929-938: classify tts failure only when no earlier class is set
    let ttsFailed := pyTruthy ttsRes.2
    let errType : Option ErrorType :=
      if ttsFailed then (if et1.isSome then et1 else some ErrorType.tts_error) else et1
    -- lines 944-946: history trim
    let store4 :=
      if (getSeq store3 sid).length > MAX_HISTORY_MESSAGES * 2 then
        setSeq store3 sid (sliceLast (getSeq store3 sid) MAX_HISTORY_MESSAGES)
      else store3
    -- line 949: overall success
    let overallSuccess := !(pyTruthy sttRes.2 || (pyTruthy llmRes.2 && !fallbackUsed))
    ({ success := overallSuccess
       message := statusMessage sttRes.2 llmRes.2 ttsRes.2
       audio_url := ttsRes.1
       transcript := sttRes.1
       llm_response := some assistantText
       session_id := sid
       message_count := (getSeq store4 sid).length
       error_type := errType
       fallback_used := fallbackUsed }, store4)

/-- The `except Exception` handler of `chat_with_history`, main.py lines
995-1014.  `storeAtExc` is the state of `chat_sessions` at the instant the
exception is raised, `excStr` is `str(e)`, `userMsg` is whatever partial
transcript was obtained, and `fbAudio` is what `generate_fallback_tts`
returns.  The handler reads `chat_sessions[session_id]` (a defaultdict
access) and never removes messages. -/
def handleUnexpected (storeAtExc : Store) (sid : String) (excStr : List Char)
    (userMsg : Option (List Char)) (fbAudio : Option (List Char)) :
    ChatResponse × Store :=
  let et := get_error_type excStr
  let fb := FALLBACK_MESSAGES et
  let store1 := touch storeAtExc sid
  ({ success := false
     message := "Unexpected error occurred: ".data ++ fb
     audio_url := fbAudio
     transcript := userMsg
     llm_response := some fb
     session_id := sid
     message_count := (getSeq store1 sid).length
     error_type := some et
     fallback_used := true }, store1)

/-- Response of the GET history endpoint, main.py lines 1027-1032. -/
structure HistoryResponse where
  session_id : String
  message_count : Nat
  messages : List Message
  max_history : Nat
deriving DecidableEq

/-- get_chat_history, main.py lines 1016-1032: reads with
`chat_sessions.get(sid, [])` and performs no mutation. -/
def get_chat_history (store : Store) (sid : String) : HistoryResponse × Store :=
  let history := getSeq store sid
  ({ session_id := sid
     message_count := history.length
     messages := history
     max_history := MAX_HISTORY_MESSAGES }, store)

/-- Response of the DELETE history endpoint, main.py lines 1046-1056. -/
structure ClearResponse where
  success : Bool
  message : List Char
  session_id : String
deriving DecidableEq

/-- The message f-string of the existing-session branch of
clear_chat_history, main.py line 1048. -/
def clearedMessage (n : Nat) (sid : String) : List Char :=
  "Cleared ".data ++ Nat.toDigits 10 n ++ " messages from session ".data ++ sid.data

/-- The message of the absent-session branch of clear_chat_history,
main.py line 1054. -/
def notFoundMessage : List Char :=
  "Session not found or already empty".data

/-- clear_chat_history, main.py lines 1034-1056. -/
def clear_chat_history (store : Store) (sid : String) : ClearResponse × Store :=
  if hasKey store sid then
    ({ success := true
       message := clearedMessage (getSeq store sid).length sid
       session_id := sid }, eraseKey store sid)
  else
    ({ success := true
       message := notFoundMessage
       session_id := sid }, store)

/-! Helper lemmas about the session store. -/

theorem isEmpty_false_of_ne {e : List Char} (he : e ≠ []) : e.isEmpty = false := by
  cases e with
  | nil => exact absurd rfl he
  | cons a t => rfl

theorem pyTruthy_some_of_ne {e : List Char} (he : e ≠ []) :
    pyTruthy (some e) = true := by
  simp [pyTruthy, isEmpty_false_of_ne he]

theorem lookupSeq_eq_none_of_hasKey_false {s : Store} {k : String}
    (h : hasKey s k = false) : lookupSeq s k = none := by
  unfold hasKey at h
  cases hl : lookupSeq s k with
  | none => rfl
  | some v => rw [hl] at h; simp at h

theorem getSeq_eq_nil_of_hasKey_false {s : Store} {k : String}
    (h : hasKey s k = false) : getSeq s k = [] := by
  simp [getSeq, lookupSeq_eq_none_of_hasKey_false h]

theorem lookupSeq_append (s t : Store) (k : String)
    (h : lookupSeq s k = none) : lookupSeq (s ++ t) k = lookupSeq t k := by
  induction s with
  | nil => rfl
  | cons p rest ih =>
      obtain ⟨k2, v⟩ := p
      by_cases hk : k2 = k
      · simp [lookupSeq, hk] at h
      · simp only [lookupSeq, hk, if_false, List.cons_append, if_neg hk] at h ⊢
        exact ih h

theorem getSeq_touch (s : Store) (k : String) :
    getSeq (touch s k) k = getSeq s k := by
  unfold touch
  cases hh : hasKey s k with
  | true => simp
  | false =>
      simp only [Bool.false_eq_true, if_false]
      have h0 := lookupSeq_eq_none_of_hasKey_false hh
      simp [getSeq, lookupSeq_append _ _ _ h0, lookupSeq, h0]

theorem hasKey_touch (s : Store) (k : String) :
    hasKey (touch s k) k = true := by
  unfold touch
  cases hh : hasKey s k with
  | true => simp [hh]
  | false =>
      simp only [Bool.false_eq_true, if_false]
      have h0 := lookupSeq_eq_none_of_hasKey_false hh
      simp [hasKey, lookupSeq_append _ _ _ h0, lookupSeq]

theorem touch_of_hasKey {s : Store} {k : String} (h : hasKey s k = true) :
    touch s k = s := by
  simp [touch, h]

theorem lookupSeq_setSeq (s : Store) (k : String) (v : List Message) :
    lookupSeq (setSeq s k v) k = some v := by
  induction s with
  | nil => simp [setSeq, lookupSeq]
  | cons p rest ih =>
      obtain ⟨k2, v2⟩ := p
      by_cases hk : k2 = k
      · simp [setSeq, lookupSeq, hk]
      · simp [setSeq, lookupSeq, hk, ih]

theorem getSeq_setSeq (s : Store) (k : String) (v : List Message) :
    getSeq (setSeq s k v) k = v := by
  simp [getSeq, lookupSeq_setSeq]

theorem hasKey_setSeq (s : Store) (k : String) (v : List Message) :
    hasKey (setSeq s k v) k = true := by
  simp [hasKey, lookupSeq_setSeq]

theorem getSeq_appendMsg (s : Store) (k : String) (m : Message) :
    getSeq (appendMsg s k m) k = getSeq s k ++ [m] := by
  simp [appendMsg, getSeq_setSeq]

theorem hasKey_appendMsg (s : Store) (k : String) (m : Message) :
    hasKey (appendMsg s k m) k = true := by
  simp [appendMsg, hasKey_setSeq]

theorem touch_appendMsg (s : Store) (k : String) (m : Message) :
    touch (appendMsg s k m) k = appendMsg s k m :=
  touch_of_hasKey (hasKey_appendMsg s k m)

theorem hasKey_false_of_not_mem {s : Store} {k : String}
    (h : k ∉ s.map Prod.fst) : hasKey s k = false := by
  induction s with
  | nil => rfl
  | cons p rest ih =>
      obtain ⟨k2, v⟩ := p
      have hk : k2 ≠ k := by
        intro hh
        exact h (by simp [hh])
      have h2 : k ∉ rest.map Prod.fst := by
        intro hh
        exact h (by simp [hh])
      simp only [hasKey, lookupSeq, if_neg hk]
      exact ih h2

theorem hasKey_eraseKey {s : Store} (k : String) (hw : StoreWF s) :
    hasKey (eraseKey s k) k = false := by
  induction s with
  | nil => rfl
  | cons p rest ih =>
      obtain ⟨k2, v⟩ := p
      unfold StoreWF at hw
      simp only [List.map_cons, List.nodup_cons] at hw
      by_cases hk : k2 = k
      · simp only [eraseKey, if_pos hk]
        subst hk
        exact hasKey_false_of_not_mem hw.1
      · simp only [eraseKey, if_neg hk, hasKey, lookupSeq]
        show hasKey (eraseKey rest k) k = false
        exact ih hw.2

theorem truncate_short_id (r : List Char) (m : Nat) (h : r.length ≤ m) :
    truncateChat r m = r := by
  simp only [truncateChat]
  rw [if_neg (by omega)]

theorem clearedMessage_head (n : Nat) (sid : String) :
    (clearedMessage n sid).head? = some 'C' := rfl

theorem clearedMessage_ne_notFound (n : Nat) (sid : String) :
    clearedMessage n sid ≠ notFoundMessage := by
  intro h
  have h1 : (clearedMessage n sid).head? = some 'C' := rfl
  rw [h] at h1
  exact absurd h1 (by decide)

/-! Claims about the truncation algorithm. -/

/-- C4 counterexample: on the text "ab cdefghijk" with a 10-character budget
(window "ab cdefghi", no sentence terminator, rightmost space at index 2,
which is below 0.9 x 10 = 9) the chat-site truncation cuts at the space
anyway while the query-site truncation cuts at the raw window, so the two
call sites do not share one policy; and on "abcdefghi jklm" (rightmost
space exactly at index 9 = 0.9 x 10) the query site does not cut at the
space, refuting the claimed non-strict threshold. -/
theorem truncate_single_policy_cex :
    truncateChat ("ab cdefghijk".data) 10 ≠ truncateQuery ("ab cdefghijk".data) 10 ∧
    truncateQuery ("abcdefghi jklm".data) 10 = ("abcdefghi ...".data) ∧
    ("abcdefghi ...".data) ≠ ("abcdefghi...".data) := by decide

/-- C4 (amended): for text longer than the budget whose window holds no
sentence terminator strictly past 0.8 x max_chars, the `/llm/query`
truncation cuts at the rightmost space exactly when that space's index is
strictly greater than 0.9 x max_chars and otherwise at the raw window,
appending an ellipsis either way; the `/agent/chat` truncation instead cuts
at the rightmost space whenever one exists at a positive index, regardless
of the 0.9 threshold, again appending an ellipsis. -/
theorem truncate_no_sentence_branch (t : List Char) (m : Nat)
    (h1 : t.length > m)
    (h2 : ¬ (5 * lastSentenceIdx (t.take m) > 4 * (m : Int))) :
    truncateQuery t m =
      ((if 10 * rfindChar (t.take m) ' ' > 9 * (m : Int) then
          (t.take m).take (rfindChar (t.take m) ' ').toNat
        else t.take m) ++ ("...".data)) ∧
    truncateChat t m =
      ((if rfindChar (t.take m) ' ' > 0 then
          (t.take m).take (rfindChar (t.take m) ' ').toNat
        else t.take m) ++ ("...".data)) := by
  constructor
  · simp only [truncateQuery]
    rw [if_pos h1, if_neg h2]
    split <;> rfl
  · simp only [truncateChat]
    rw [if_pos h1, if_neg h2]

/-- C4 witness: the amended statement evaluated on "ab cdefghijk" with a
budget of 10 characters. -/
theorem truncate_no_sentence_branch_witness :
    (("ab cdefghijk".data).length > 10) ∧
    (¬ (5 * lastSentenceIdx (("ab cdefghijk".data).take 10) > 4 * ((10 : Nat) : Int))) ∧
    (truncateQuery ("ab cdefghijk".data) 10 =
      ((if 10 * rfindChar (("ab cdefghijk".data).take 10) ' ' > 9 * ((10 : Nat) : Int) then
          (("ab cdefghijk".data).take 10).take (rfindChar (("ab cdefghijk".data).take 10) ' ').toNat
        else ("ab cdefghijk".data).take 10) ++ ("...".data)) ∧
     truncateChat ("ab cdefghijk".data) 10 =
      ((if rfindChar (("ab cdefghijk".data).take 10) ' ' > 0 then
          (("ab cdefghijk".data).take 10).take (rfindChar (("ab cdefghijk".data).take 10) ' ').toNat
        else ("ab cdefghijk".data).take 10) ++ ("...".data))) :=
  ⟨by decide, by decide,
    truncate_no_sentence_branch ("ab cdefghijk".data) 10 (by decide) (by decide)⟩

/-- C5 counterexample: on "abcdefgh.jkl" with a 10-character budget the
rightmost terminator of the window "abcdefgh.j" sits exactly at index
8 = 0.8 x 10, yet both truncations fall through to the word-boundary branch
and append an ellipsis instead of ending at the terminator, because the
source compares with a strict greater-than. -/
theorem truncate_sentence_boundary_cex :
    truncateChat ("abcdefgh.jkl".data) 10 = ("abcdefgh.j...".data) ∧
    truncateQuery ("abcdefgh.jkl".data) 10 = ("abcdefgh.j...".data) ∧
    ("abcdefgh.j...".data) ≠ ("abcdefgh.".data) := by decide

/-- C5 (amended): for text longer than the budget whose window holds a
sentence terminator at an index strictly greater than 0.8 x max_chars, both
truncations end exactly at the rightmost terminator of the window,
inclusive, with no ellipsis appended; at index exactly 0.8 x max_chars the
branch is not taken. -/
theorem truncate_sentence_branch (t : List Char) (m : Nat)
    (h1 : t.length > m)
    (h2 : 5 * lastSentenceIdx (t.take m) > 4 * (m : Int)) :
    truncateChat t m = (t.take m).take ((lastSentenceIdx (t.take m)).toNat + 1) ∧
    truncateQuery t m = (t.take m).take ((lastSentenceIdx (t.take m)).toNat + 1) := by
  constructor
  · simp only [truncateChat]
    rw [if_pos h1, if_pos h2]
  · simp only [truncateQuery]
    rw [if_pos h1, if_pos h2]

/-- C5 witness: the amended statement evaluated on "abcdefghi.xyz" with a
budget of 10 characters, whose window has its rightmost period at index 9. -/
theorem truncate_sentence_branch_witness :
    (("abcdefghi.xyz".data).length > 10) ∧
    (5 * lastSentenceIdx (("abcdefghi.xyz".data).take 10) > 4 * ((10 : Nat) : Int)) ∧
    (truncateChat ("abcdefghi.xyz".data) 10 =
      (("abcdefghi.xyz".data).take 10).take
        ((lastSentenceIdx (("abcdefghi.xyz".data).take 10)).toNat + 1) ∧
     truncateQuery ("abcdefghi.xyz".data) 10 =
      (("abcdefghi.xyz".data).take 10).take
        ((lastSentenceIdx (("abcdefghi.xyz".data).take 10)).toNat + 1)) :=
  ⟨by decide, by decide,
    truncate_sentence_branch ("abcdefghi.xyz".data) 10 (by decide) (by decide)⟩

/-- C6 counterexample: on "abcdefghi klmnop" with a 10-character budget the
chat-site truncation yields "abcdefghi..." (12 characters), and a second
application re-truncates that to "abcdefghi.", so the truncation is not
idempotent. -/
theorem truncate_idempotent_cex :
    truncateChat (truncateChat ("abcdefghi klmnop".data) 10) 10 ≠
      truncateChat ("abcdefghi klmnop".data) 10 := by decide

/-- C6 (amended): the pre-synthesis truncation is idempotent whenever its
first application produces a result within the budget; the counterexample
shows that the word-boundary branch can exceed the budget by up to three
ellipsis characters, after which a second application shortens the text
further. -/
theorem truncate_idempotent_of_short (t : List Char) (m : Nat)
    (h : (truncateChat t m).length ≤ m) :
    truncateChat (truncateChat t m) m = truncateChat t m :=
  truncate_short_id (truncateChat t m) m h

/-- C6 witness: the amended statement evaluated on the five-character text
"hello" with a budget of 10 characters. -/
theorem truncate_idempotent_of_short_witness :
    ((truncateChat ("hello".data) 10).length ≤ 10) ∧
    truncateChat (truncateChat ("hello".data) 10) 10 = truncateChat ("hello".data) 10 :=
  ⟨by decide, truncate_idempotent_of_short ("hello".data) 10 (by decide)⟩

/-! Claims about history trimming. -/

/-- C7: whenever a session's stored message count exceeds twice the
configured window, the end-of-turn trim replaces the sequence with exactly
the most recent MAX_HISTORY_MESSAGES messages: the result has length
exactly MAX_HISTORY_MESSAGES, and re-attaching the discarded prefix
recovers the original sequence, so the kept messages are precisely the
final window. -/
theorem trim_law_keeps_last_n (msgs : List Message)
    (h : msgs.length > MAX_HISTORY_MESSAGES * 2) :
    (trimStep msgs).length = MAX_HISTORY_MESSAGES ∧
    msgs.take (msgs.length - MAX_HISTORY_MESSAGES) ++ trimStep msgs = msgs := by
  constructor
  · simp only [trimStep, sliceLast, if_pos h]
    rw [List.length_drop]
    omega
  · simp only [trimStep, sliceLast, if_pos h]
    exact List.take_append_drop _ _

/-- C7 witness: the trim law evaluated on a 41-message session, which the
trim reduces to the most recent 20 messages. -/
theorem trim_law_keeps_last_n_witness :
    ((List.replicate 41 (⟨Role.user, [], 0⟩ : Message)).length > MAX_HISTORY_MESSAGES * 2) ∧
    ((trimStep (List.replicate 41 (⟨Role.user, [], 0⟩ : Message))).length = MAX_HISTORY_MESSAGES ∧
     (List.replicate 41 (⟨Role.user, [], 0⟩ : Message)).take
        ((List.replicate 41 (⟨Role.user, [], 0⟩ : Message)).length - MAX_HISTORY_MESSAGES) ++
        trimStep (List.replicate 41 (⟨Role.user, [], 0⟩ : Message)) =
        List.replicate 41 (⟨Role.user, [], 0⟩ : Message)) :=
  ⟨by decide, trim_law_keeps_last_n _ (by decide)⟩

/-! Claims about the turn orchestrator. -/

/-- C1 counterexample: on a session already holding 39 messages, a turn
whose transcription succeeds and whose Responder fails still sets
fallback_used and success, but the end-of-turn trim fires (39 + 2 = 41 > 40)
and the session ends the turn with 20 messages, not with the pre-turn count
plus two, so the session does not gain exactly two messages. -/
theorem chat_llm_fallback_two_messages_cex :
    (let store0 : Store := [("s", List.replicate 39 (⟨Role.user, [], 0⟩ : Message))]
     let r := chat_with_history store0 "s" (some ['h'], none) (none, some ['e'])
        (none, some ['f']) none 1 2
     r.1.fallback_used = true ∧ r.1.success = true ∧
       (getSeq r.2 "s").length ≠ (getSeq store0 "s").length + 2) := by decide

/-- C1 (amended): for every turn in which transcription succeeds but the
Responder returns an error, and in which the pre-turn stored count plus the
two new messages does not exceed the hard cap of 2 x MAX_HISTORY_MESSAGES
(so the end-of-turn trim does not fire), the session gains exactly two new
messages in order — the user transcript, then the fixed llm_error fallback
text as the assistant message — and the returned result has
fallback_used = true, success = true, and a message count of the pre-turn
count plus two, all regardless of the synthesis outcome. -/
theorem chat_llm_fallback_degradation (store : Store) (sid : String)
    (t e : List Char) (ttsRes : Option (List Char) × Option (List Char))
    (fbAudio : Option (List Char)) (ts1 ts2 : Nat) (he : e ≠ [])
    (hlen : (getSeq store sid).length + 2 ≤ MAX_HISTORY_MESSAGES * 2) :
    getSeq (chat_with_history store sid (some t, none) (none, some e) ttsRes fbAudio ts1 ts2).2 sid
      = getSeq store sid ++
        [⟨Role.user, t, ts1⟩, ⟨Role.assistant, FALLBACK_MESSAGES ErrorType.llm_error, ts2⟩] ∧
    (chat_with_history store sid (some t, none) (none, some e) ttsRes fbAudio ts1 ts2).1.fallback_used
      = true ∧
    (chat_with_history store sid (some t, none) (none, some e) ttsRes fbAudio ts1 ts2).1.success
      = true ∧
    (chat_with_history store sid (some t, none) (none, some e) ttsRes fbAudio ts1 ts2).1.message_count
      = (getSeq store sid).length + 2 := by
  have hE : e.isEmpty = false := isEmpty_false_of_ne he
  have hseq : getSeq (appendMsg (appendMsg (touch store sid) sid ⟨Role.user, t, ts1⟩) sid
      ⟨Role.assistant, FALLBACK_MESSAGES ErrorType.llm_error, ts2⟩) sid
      = getSeq store sid ++
        [⟨Role.user, t, ts1⟩, ⟨Role.assistant, FALLBACK_MESSAGES ErrorType.llm_error, ts2⟩] := by
    rw [getSeq_appendMsg, getSeq_appendMsg, getSeq_touch, List.append_assoc]
    rfl
  have hlt : ¬ (MAX_HISTORY_MESSAGES * 2 < (getSeq store sid).length + 2) := by omega
  simp [chat_with_history, pyTruthy, hE, hseq, hlt, Bool.and_not_self]

/-- C1 witness: the amended degradation law evaluated on an empty store with
transcript "h" and a failing Responder. -/
theorem chat_llm_fallback_degradation_witness :
    (['e'] ≠ ([] : List Char)) ∧
    ((getSeq ([] : Store) "s").length + 2 ≤ MAX_HISTORY_MESSAGES * 2) ∧
    (getSeq (chat_with_history ([] : Store) "s" (some ['h'], none) (none, some ['e'])
        (none, none) none 1 2).2 "s"
      = getSeq ([] : Store) "s" ++
        [⟨Role.user, ['h'], 1⟩, ⟨Role.assistant, FALLBACK_MESSAGES ErrorType.llm_error, 2⟩] ∧
     (chat_with_history ([] : Store) "s" (some ['h'], none) (none, some ['e'])
        (none, none) none 1 2).1.fallback_used = true ∧
     (chat_with_history ([] : Store) "s" (some ['h'], none) (none, some ['e'])
        (none, none) none 1 2).1.success = true ∧
     (chat_with_history ([] : Store) "s" (some ['h'], none) (none, some ['e'])
        (none, none) none 1 2).1.message_count = (getSeq ([] : Store) "s").length + 2) :=
  ⟨by decide, by decide,
    chat_llm_fallback_degradation [] "s" ['h'] ['e'] (none, none) none 1 2
      (by decide) (by decide)⟩

/-- C2: when the Transcriber returns an error, the turn result has
success = false and a null transcript, the session's message sequence is
unchanged, and the reported message count equals the pre-call stored
count. -/
theorem chat_stt_failure_no_append (store : Store) (sid : String) (e : List Char)
    (llmRes ttsRes : Option (List Char) × Option (List Char))
    (fbAudio : Option (List Char)) (ts1 ts2 : Nat) (he : e ≠ []) :
    (chat_with_history store sid (none, some e) llmRes ttsRes fbAudio ts1 ts2).1.success = false ∧
    (chat_with_history store sid (none, some e) llmRes ttsRes fbAudio ts1 ts2).1.transcript = none ∧
    getSeq (chat_with_history store sid (none, some e) llmRes ttsRes fbAudio ts1 ts2).2 sid
      = getSeq store sid ∧
    (chat_with_history store sid (none, some e) llmRes ttsRes fbAudio ts1 ts2).1.message_count
      = (getSeq store sid).length := by
  have ht : pyTruthy (some e) = true := pyTruthy_some_of_ne he
  simp [chat_with_history, ht, getSeq_touch]

/-- C2 witness: a failed transcription on a store holding one message in
session "s" leaves that session's history untouched. -/
theorem chat_stt_failure_no_append_witness :
    (['e'] ≠ ([] : List Char)) ∧
    ((chat_with_history [("s", [⟨Role.user, ['a'], 0⟩])] "s" (none, some ['e'])
        (none, none) (none, none) none 1 2).1.success = false ∧
     (chat_with_history [("s", [⟨Role.user, ['a'], 0⟩])] "s" (none, some ['e'])
        (none, none) (none, none) none 1 2).1.transcript = none ∧
     getSeq (chat_with_history [("s", [⟨Role.user, ['a'], 0⟩])] "s" (none, some ['e'])
        (none, none) (none, none) none 1 2).2 "s"
       = getSeq [("s", [⟨Role.user, ['a'], 0⟩])] "s" ∧
     (chat_with_history [("s", [⟨Role.user, ['a'], 0⟩])] "s" (none, some ['e'])
        (none, none) (none, none) none 1 2).1.message_count
       = (getSeq [("s", [⟨Role.user, ['a'], 0⟩])] "s").length) :=
  ⟨by decide,
    chat_stt_failure_no_append [("s", [⟨Role.user, ['a'], 0⟩])] "s" ['e']
      (none, none) (none, none) none 1 2 (by decide)⟩

/-- C3: the error classification of a turn is chosen by the earliest failing
stage: a synthesis failure is classified tts_error only when both earlier
stages succeeded, and in that case the turn still carries the assistant text
with no audio reference; when the Responder failed earlier the
classification stays llm_error even if synthesis also fails; and a
transcription failure is classified stt_error no matter what the later
stages would have returned. -/
theorem error_classification_precedence (store : Store) (sid : String)
    (t a e1 e2 : List Char)
    (llmRes ttsRes : Option (List Char) × Option (List Char))
    (fbAudio : Option (List Char)) (ts1 ts2 : Nat)
    (he1 : e1 ≠ []) (he2 : e2 ≠ []) :
    ((chat_with_history store sid (some t, none) (some a, none) (none, some e2)
        fbAudio ts1 ts2).1.error_type = some ErrorType.tts_error ∧
     (chat_with_history store sid (some t, none) (some a, none) (none, some e2)
        fbAudio ts1 ts2).1.audio_url = none ∧
     (chat_with_history store sid (some t, none) (some a, none) (none, some e2)
        fbAudio ts1 ts2).1.llm_response = some a ∧
     (chat_with_history store sid (some t, none) (some a, none) (none, some e2)
        fbAudio ts1 ts2).1.success = true) ∧
    ((chat_with_history store sid (some t, none) (none, some e1) (none, some e2)
        fbAudio ts1 ts2).1.error_type = some ErrorType.llm_error) ∧
    ((chat_with_history store sid (none, some e1) llmRes ttsRes
        fbAudio ts1 ts2).1.error_type = some ErrorType.stt_error) := by
  have hE1 : e1.isEmpty = false := isEmpty_false_of_ne he1
  have hE2 : e2.isEmpty = false := isEmpty_false_of_ne he2
  refine ⟨⟨?_, ?_, ?_, ?_⟩, ?_, ?_⟩ <;>
    simp [chat_with_history, pyTruthy, hE1, hE2, Bool.and_not_self]

/-- C3 witness: the classification precedence evaluated on an empty store
with concrete transcript, reply, and error strings. -/
theorem error_classification_precedence_witness :
    (['x'] ≠ ([] : List Char)) ∧ (['y'] ≠ ([] : List Char)) ∧
    (((chat_with_history ([] : Store) "s" (some ['t'], none) (some ['a'], none)
        (none, some ['y']) none 1 2).1.error_type = some ErrorType.tts_error ∧
      (chat_with_history ([] : Store) "s" (some ['t'], none) (some ['a'], none)
        (none, some ['y']) none 1 2).1.audio_url = none ∧
      (chat_with_history ([] : Store) "s" (some ['t'], none) (some ['a'], none)
        (none, some ['y']) none 1 2).1.llm_response = some ['a'] ∧
      (chat_with_history ([] : Store) "s" (some ['t'], none) (some ['a'], none)
        (none, some ['y']) none 1 2).1.success = true) ∧
     ((chat_with_history ([] : Store) "s" (some ['t'], none) (none, some ['x'])
        (none, some ['y']) none 1 2).1.error_type = some ErrorType.llm_error) ∧
     ((chat_with_history ([] : Store) "s" (none, some ['x']) (some ['a'], none)
        (none, none) none 1 2).1.error_type = some ErrorType.stt_error)) :=
  ⟨by decide, by decide,
    error_classification_precedence [] "s" ['t'] ['a'] ['x'] ['y']
      (some ['a'], none) (none, none) none 1 2 (by decide) (by decide)⟩

/-- C9: when an unanticipated exception is raised after the user message and
the assistant message have been appended, the handler returns a result with
success = false and fallback_used = true, leaves the store exactly as it was
at the exception (no rollback), and reports a message count that includes
the two appended messages. -/
theorem exception_preserves_history (store : Store) (sid : String)
    (excStr u a : List Char) (fbAudio : Option (List Char)) (ts1 ts2 : Nat) :
    (let s2 := appendMsg (appendMsg (touch store sid) sid ⟨Role.user, u, ts1⟩) sid
        ⟨Role.assistant, a, ts2⟩
     let r := handleUnexpected s2 sid excStr (some u) fbAudio
     r.1.success = false ∧ r.1.fallback_used = true ∧ r.2 = s2 ∧
       getSeq r.2 sid = getSeq store sid ++ [⟨Role.user, u, ts1⟩, ⟨Role.assistant, a, ts2⟩] ∧
       r.1.message_count = (getSeq store sid).length + 2) := by
  simp [handleUnexpected, touch_appendMsg, getSeq_appendMsg, getSeq_touch]

/-- C10: a chat turn whose transcription fails on a session id absent from
the store still creates an empty entry for that session, whereas reading
history through the get-history operation neither mutates the store nor
creates the session, reporting a zero message count. -/
theorem chat_creates_session_get_does_not (store : Store) (sid : String)
    (e : List Char) (llmRes ttsRes : Option (List Char) × Option (List Char))
    (fbAudio : Option (List Char)) (ts1 ts2 : Nat)
    (he : e ≠ []) (habs : hasKey store sid = false) :
    hasKey (chat_with_history store sid (none, some e) llmRes ttsRes fbAudio ts1 ts2).2 sid
      = true ∧
    getSeq (chat_with_history store sid (none, some e) llmRes ttsRes fbAudio ts1 ts2).2 sid
      = [] ∧
    (get_chat_history store sid).2 = store ∧
    (get_chat_history store sid).1.message_count = 0 := by
  have ht : pyTruthy (some e) = true := pyTruthy_some_of_ne he
  refine ⟨?_, ?_, rfl, ?_⟩
  · simp [chat_with_history, ht, hasKey_touch]
  · simp [chat_with_history, ht, getSeq_touch, getSeq_eq_nil_of_hasKey_false habs]
  · simp [get_chat_history, getSeq_eq_nil_of_hasKey_false habs]

/-- C10 witness: the creation side effect evaluated on a store holding only
session "other", with the turn invoked for the absent session "s". -/
theorem chat_creates_session_get_does_not_witness :
    (['e'] ≠ ([] : List Char)) ∧
    (hasKey [("other", [⟨Role.user, ['a'], 0⟩])] "s" = false) ∧
    (hasKey (chat_with_history [("other", [⟨Role.user, ['a'], 0⟩])] "s" (none, some ['e'])
        (none, none) (none, none) none 1 2).2 "s" = true ∧
     getSeq (chat_with_history [("other", [⟨Role.user, ['a'], 0⟩])] "s" (none, some ['e'])
        (none, none) (none, none) none 1 2).2 "s" = [] ∧
     (get_chat_history [("other", [⟨Role.user, ['a'], 0⟩])] "s").2
       = [("other", [⟨Role.user, ['a'], 0⟩])] ∧
     (get_chat_history [("other", [⟨Role.user, ['a'], 0⟩])] "s").1.message_count = 0) :=
  ⟨by decide, by decide,
    chat_creates_session_get_does_not [("other", [⟨Role.user, ['a'], 0⟩])] "s" ['e']
      (none, none) (none, none) none 1 2 (by decide) (by decide)⟩

/-! Claim about the clear operation. -/

/-- C8: on a store with distinct keys, clearing a session deletes its
sequence entirely (the key is gone afterwards, and when it was absent the
store is returned unchanged), and the returned payload tells whether a
session existed to delete: the success flag is constantly true, but the
message equals the fixed not-found text exactly when the session was
absent, and equals the cleared-count text when it was present. -/
theorem clear_reports_existence (store : Store) (sid : String) (hw : StoreWF store) :
    hasKey (clear_chat_history store sid).2 sid = false ∧
    (clear_chat_history store sid).1.success = true ∧
    (hasKey store sid = true →
      (clear_chat_history store sid).1.message
        = clearedMessage (getSeq store sid).length sid) ∧
    (hasKey store sid = false →
      (clear_chat_history store sid).1.message = notFoundMessage ∧
      (clear_chat_history store sid).2 = store) ∧
    ((clear_chat_history store sid).1.message = notFoundMessage ↔
      hasKey store sid = false) := by
  cases hh : hasKey store sid with
  | true =>
      refine ⟨?_, ?_, ?_, ?_, ?_⟩
      · simp only [clear_chat_history, hh, if_true]
        exact hasKey_eraseKey sid hw
      · simp [clear_chat_history, hh]
      · intro _
        simp [clear_chat_history, hh]
      · intro hcontra
        exact absurd hcontra (by decide)
      · simp only [clear_chat_history, hh, if_true]
        constructor
        · intro hmsg
          exact absurd hmsg (clearedMessage_ne_notFound _ _)
        · intro hcontra
          exact absurd hcontra (by decide)
  | false =>
      refine ⟨?_, ?_, ?_, ?_, ?_⟩
      · simp [clear_chat_history, hh]
      · simp [clear_chat_history, hh]
      · intro hcontra
        exact absurd hcontra (by decide)
      · intro _
        simp [clear_chat_history, hh]
      · simp [clear_chat_history, hh]

/-- C8 witness: the clear semantics evaluated on a well-formed store holding
the single session "a". -/
theorem clear_reports_existence_witness :
    StoreWF [("a", [⟨Role.user, ['h'], 0⟩])] ∧
    (hasKey (clear_chat_history [("a", [⟨Role.user, ['h'], 0⟩])] "a").2 "a" = false ∧
     (clear_chat_history [("a", [⟨Role.user, ['h'], 0⟩])] "a").1.success = true ∧
     (hasKey [("a", [⟨Role.user, ['h'], 0⟩])] "a" = true →
       (clear_chat_history [("a", [⟨Role.user, ['h'], 0⟩])] "a").1.message
         = clearedMessage (getSeq [("a", [⟨Role.user, ['h'], 0⟩])] "a").length "a") ∧
     (hasKey [("a", [⟨Role.user, ['h'], 0⟩])] "a" = false →
       (clear_chat_history [("a", [⟨Role.user, ['h'], 0⟩])] "a").1.message = notFoundMessage ∧
       (clear_chat_history [("a", [⟨Role.user, ['h'], 0⟩])] "a").2
         = [("a", [⟨Role.user, ['h'], 0⟩])]) ∧
     ((clear_chat_history [("a", [⟨Role.user, ['h'], 0⟩])] "a").1.message = notFoundMessage ↔
       hasKey [("a", [⟨Role.user, ['h'], 0⟩])] "a" = false)) :=
  ⟨by simp [StoreWF], clear_reports_existence [("a", [⟨Role.user, ['h'], 0⟩])] "a"
    (by simp [StoreWF])⟩

end MurfAgent
